import Mathlib

/-!
Verification development for the rsc_oracle tools: a shallow embedding of the
session manager (rsc_oracle/common/connection.py), the database identity
resolver (rsc_oracle/common/oracle_database.py), and the host/RAC target
resolver (rsc_oracle/common/oracle_target.py), together with theorems about
the disambiguation, authentication and polling behaviour.

Network calls are modelled by passing the parsed query responses as explicit
inputs; process-level effects (raising, exiting, releasing the session) are
modelled by explicit outcome values.
-/

namespace RscOracle

/-- Python substring containment on character lists: needle occurs contiguously
inside hay. Used to model the Python expression "needle in hay" on strings. -/
def listInfix (needle : List Char) : List Char → Bool
  | [] => needle.isEmpty
  | c :: t => needle.isPrefixOf (c :: t) || listInfix needle t

/-- Python membership test "needle in hay" for strings. -/
def pyIn (needle hay : String) : Bool :=
  listInfix needle.toList hay.toList

/-- Python str.lower modelled characterwise. -/
def pyLower (s : String) : String :=
  String.mk (s.toList.map Char.toLower)

/-- Python str.strip with the default whitespace characters, modelled on the
character list. -/
def pyStrip (s : String) : String :=
  String.mk ((((s.toList.dropWhile Char.isWhitespace).reverse.dropWhile
    Char.isWhitespace).reverse))

/-- Python truthiness of a string-or-None value: None and the empty string are
falsy, every other string is truthy. -/
def pyTruthy : Option String → Bool
  | none => false
  | some s => s ≠ ""

/-- Lookup in a JSON object modelled as an association list (first binding
wins, as in a parsed JSON object). -/
def lookupDict {α : Type} (d : List (String × α)) (k : String) : Option α :=
  (d.find? (fun p => p.fst = k)).map Prod.snd

/-- Python dict assignment d[k] = v: replaces the binding when the key is
present (keys are unique in a dict coming from json.load), appends it
otherwise. -/
def setDict {α : Type} (d : List (String × α)) (k : String) (v : α) :
    List (String × α) :=
  match d with
  | [] => [(k, v)]
  | p :: t => if p.fst = k then (k, v) :: t else p :: setDict t k v

/-- Python runtime errors that the embedded code can raise. These are ordinary
uncaught exceptions, distinct from the domain error classes of the tool. -/
inductive PyErr
  | keyError (key : String)
  | attributeError (attr : String)
  | typeErrorNoneNotSubscriptable
  | unboundLocalError (varName : String)
deriving DecidableEq, Repr

/-! ## connection.py: domain error classes (lines 39-56, claim C10)

NoTraceBackWithLineNumber.__init__ (connection.py lines 43-49) computes a line
number, sets self.args to the single formatted string
type(self).__name__ ++ " (line " ++ line ++ "): " ++ msg, and then calls
sys.exit(self). Construction therefore never returns: the raise statement that
tried to create the exception instance never gets an instance to propagate,
and the process terminates with the formatted message printed. -/

/-- Possible outcomes of executing a raise statement for an exception class. -/
inductive RaiseOutcome
  | processExit (message : String)
  | propagated (className : String) (message : String)
deriving DecidableEq, Repr

/-- Message format built by NoTraceBackWithLineNumber.__init__ (line 48). -/
def formatNoTraceback (className : String) (line : Nat) (msg : String) : String :=
  className ++ " (line " ++ toString line ++ "): " ++ msg

/-- Embedding of a raise of any subclass of NoTraceBackWithLineNumber: the
inherited __init__ runs with type(self) bound to the subclass, formats the
message and calls sys.exit(self), so the statement ends the process instead of
propagating an exception object (connection.py lines 43-49). -/
def raiseDomainError (className : String) (line : Nat) (msg : String) :
    RaiseOutcome :=
  .processExit (formatNoTraceback className line msg)

/-- The subclasses of NoTraceBackWithLineNumber declared across the rsc_oracle
package; each has an empty body and inherits __init__ unchanged. -/
def domainErrorClasses : List String :=
  ["RbsOracleConnectionError", "OracleDatabaseError", "OracleTargetError",
   "OracleClusterError", "RubrikOracleMountInfoError",
   "RubrikOracleBackupInfoError", "RubrikOracleDBMountError"]

/-! ## connection.py: RubrikConnection.__init__ credential sourcing
(lines 77-133, claims C7 and C6) -/

/-- A parsed key file: a JSON object whose values are strings or null. -/
def KeyfileJson : Type := List (String × Option String)

/-- Normalisation applied to every loaded key file setting (lines 102-104):
a value that is falsy or whitespace-only becomes None, others are kept. -/
def normalizeSetting : Option String → Option String
  | none => none
  | some v => if pyStrip v = "" then none else some v

/-- The configuration dict right after the key file step: either the initial
four-key dict with None values (lines 77-82, key file absent) or the loaded
JSON object with blank values normalised to None (lines 99-104). -/
def loadConfig (keyfile : Option KeyfileJson) : List (String × Option String) :=
  match keyfile with
  | none =>
      [("client_id", none), ("client_secret", none),
       ("name", none), ("access_token_uri", none)]
  | some kvs => kvs.map (fun p => (p.fst, normalizeSetting p.snd))

/-- One environment-variable fallback step (for example lines 107-110): the
dict access self.config[key] raises KeyError when the key is absent; when the
present value is falsy it is replaced by the environment value. -/
def envFallbackKey (config : List (String × Option String)) (envVal : Option String)
    (key : String) : Except PyErr (List (String × Option String)) :=
  match lookupDict config key with
  | none => .error (.keyError key)
  | some v => if pyTruthy v then .ok config else .ok (setDict config key envVal)

/-- Truthiness of a dict entry (an absent key counts as falsy; at the call
sites below the key is provably present). -/
def dictTruthy (config : List (String × Option String)) (key : String) : Bool :=
  match lookupDict config key with
  | none => false
  | some v => pyTruthy v

/-- Value of a dict entry defaulted to the empty string (at the call sites
below the key is provably present and truthy). -/
def dictGetStr (config : List (String × Option String)) (key : String) : String :=
  match lookupDict config key with
  | none => ""
  | some none => ""
  | some (some s) => s

/-- Outcome of the part of RubrikConnection.__init__ up to the token request
(lines 77-139): a Python crash, the credential check failure of line 120
(RbsOracleConnectionError, the AuthError of the spec), or reaching the network
call of line 134 with the assembled payload. -/
inductive InitOutcome
  | pyCrash (e : PyErr)
  | authError (msg : String)
  | tokenRequest (clientId clientSecret : String) (name : Option String)
      (accessTokenUri : String)
deriving DecidableEq, Repr

/-- Embedding of RubrikConnection.__init__ lines 77-139: load the key file,
fall back to the environment variables rsc_client_id, rsc_client_secret and
rsc_access_token_uri for falsy entries, fail with RbsOracleConnectionError
when one of the three credentials is still falsy (line 119-120), otherwise
build the payload (which reads config of name, line 125) and reach the POST of
line 134. -/
def rubrikConnectionInit (keyfile : Option KeyfileJson)
    (env : String → Option String) : InitOutcome :=
  let config := loadConfig keyfile
  match envFallbackKey config (env "rsc_client_id") "client_id" with
  | .error e => .pyCrash e
  | .ok c1 =>
    match envFallbackKey c1 (env "rsc_client_secret") "client_secret" with
    | .error e => .pyCrash e
    | .ok c2 =>
      match envFallbackKey c2 (env "rsc_access_token_uri") "access_token_uri" with
      | .error e => .pyCrash e
      | .ok c3 =>
        if ¬ dictTruthy c3 "client_id" ∨ ¬ dictTruthy c3 "client_secret"
            ∨ ¬ dictTruthy c3 "access_token_uri" then
          .authError "No keyfile credentials found in keyfile or environmental variables"
        else
          match lookupDict c3 "name" with
          | none => .pyCrash (.keyError "name")
          | some nm =>
              .tokenRequest (dictGetStr c3 "client_id") (dictGetStr c3 "client_secret")
                nm (dictGetStr c3 "access_token_uri")

/-- Specification-side resolution of one credential: take the key file value
when present and not blank, otherwise the environment value. -/
def resolvedCred (keyfile : Option KeyfileJson) (env : String → Option String)
    (fileKey envKey : String) : Option String :=
  match keyfile with
  | none => env envKey
  | some kvs =>
      match normalizeSetting ((lookupDict kvs fileKey).getD none) with
      | some v => some v
      | none => env envKey

/-! ## connection.py: token acquisition (lines 59-67 and 134-149, claim C6) -/

/-- Fixed HTTP status to warning message table (connection.py lines 59-67). -/
def HTTP_ERRORS (status : Nat) : Option String :=
  if status = 204 then some "No Content"
  else if status = 400 then some "Bad request: An error occurred while fetching the data"
  else if status = 401 then some "Authentication error: Please provide valid credentials"
  else if status = 403 then some "Forbidden: Please provide valid credentials"
  else if status = 409 then some "Conflict"
  else if status = 404 then some "Resource not found"
  else if status = 500 then some "The server encountered an error"
  else none

/-- Token endpoint response: the HTTP status and the parsed JSON body. -/
structure TokenResponse where
  status : Nat
  body : List (String × String)
deriving DecidableEq, Repr

/-- Outcome of the token exchange: the RbsOracleConnectionError of line 145
(the AuthError of the spec), or a session holding the stored access token and
the bearer Authorization header of lines 147-149. -/
inductive TokenOutcome
  | authError (msg : String)
  | session (accessToken : String) (authorizationHeader : String)
deriving DecidableEq, Repr

/-- Embedding of RubrikConnection.__init__ lines 140-149: a non-200 status only
looks up and logs a warning from HTTP_ERRORS; the response body alone decides
success, failing with RbsOracleConnectionError exactly when it lacks the
access_token field, and otherwise storing the token and building the bearer
header. Returns the logged warning (if any) together with the outcome. -/
def acquireToken (resp : TokenResponse) : Option String × TokenOutcome :=
  let warning := if resp.status ≠ 200 then HTTP_ERRORS resp.status else none
  match lookupDict resp.body "access_token" with
  | none => (warning, .authError "Unable to obtain access token from RSC.")
  | some tok => (warning, .session tok ("Bearer " ++ tok))

/-! ## connection.py: async_requests_wait (lines 177-193, claims C5 and C9)

The poll on line 182 is written
self.graphql_query(..., timeout=self.cdm_timeout); RubrikConnection.__init__
never assigns cdm_timeout, so evaluating the keyword argument raises
AttributeError before the call (and graphql_query, lines 164-175, accepts no
timeout keyword either). Time is modelled discretely: iteration k of the while
loop starts at elapsed time 10 k seconds, each non-terminal iteration
sleeping 10 seconds, so the loop guard time < start + 60 timeout reads
10 k < 60 timeout. -/

/-- Terminal states of an asynchronous request (connection.py line 179). -/
def terminal_states : List String := ["FAILED", "CANCELED", "SUCCEEDED"]

/-- Embedding of the poll expression on line 182: the attribute lookup
self.cdm_timeout fails on RubrikConnection, so every poll raises
AttributeError regardless of the remote request state. -/
def requestStatusPoll : Nat → Except PyErr String :=
  fun _ => .error (.attributeError "cdm_timeout")

/-- Result of the wait: the returned request status, the timeout error of
lines 189-191, or an uncaught Python crash. -/
inductive WaitResult
  | completed (status : String)
  | timeoutError (lastStatus : String) (timeoutMinutes : Nat)
  | pyCrash (e : PyErr)
deriving DecidableEq, Repr

/-- Wait outcome together with whether delete_session ran before the end. -/
structure WaitOutcome where
  result : WaitResult
  sessionDeleted : Bool
deriving DecidableEq, Repr

/-- The while loop of lines 181-186: while 10 k < deadline, poll; stop on a
terminal status, otherwise sleep and continue. Returns the last polled status
(None when the loop never ran, as with a zero timeout). The fuel argument is
an upper bound on the iteration count and is never exhausted when it starts
at deadline + 1. -/
def waitLoopGo (poll : Nat → Except PyErr String) (deadline : Nat) :
    Nat → Nat → Option String → Except PyErr (Option String)
  | 0, _, acc => .ok acc
  | fuel + 1, k, acc =>
    if 10 * k < deadline then
      match poll k with
      | .error e => .error e
      | .ok st =>
        if terminal_states.contains st then .ok (some st)
        else waitLoopGo poll deadline fuel (k + 1) (some st)
    else .ok acc

/-- Embedding of RubrikConnection.async_requests_wait (lines 177-193),
parameterised by the poll step. After the loop, line 187 subscripts
oracle_request, which is still None when the loop never polled, raising
TypeError before delete_session can run; a non-terminal last status releases
the session and raises the timeout RbsOracleConnectionError (lines 188-191);
a terminal status is returned (line 193). -/
def async_requests_wait (poll : Nat → Except PyErr String) (timeout : Nat) :
    WaitOutcome :=
  let deadline := timeout * 60
  match waitLoopGo poll deadline (deadline + 1) 0 none with
  | .error e => ⟨.pyCrash e, false⟩
  | .ok none => ⟨.pyCrash .typeErrorNoneNotSubscriptable, false⟩
  | .ok (some st) =>
    if terminal_states.contains st then ⟨.completed st, false⟩
    else ⟨.timeoutError st timeout, true⟩

/-! ## oracle_database.py: OracleDatabase.get_oracle_db_id (lines 52-302,
claims C1, C2, C3, C4 and the resolver half of C9)

The two GraphQL responses (the name query of lines 61-133 and the Data Guard
group fallback query of lines 143-230) are inputs of the embedding. The
outcome records which OracleDatabaseError is raised (each raise site) or which
Python crash occurs, together with whether delete_session ran first. -/

/-- Cluster subobject with name, id and timezone. -/
structure ClusterInfo where
  name : String
  id : String
  timezone : String
deriving DecidableEq, Repr

/-- Cluster subobject with name and id only (descendant nodes). -/
structure ClusterNameId where
  name : String
  id : String
deriving DecidableEq, Repr

/-- Entry of a physicalPath list. -/
structure PathNode where
  fid : String
  name : String
  objectType : String
deriving DecidableEq, Repr

/-- The dataGuardGroup subobject requested by the name query (lines 74-79). -/
structure DataGuardGroupInfo where
  dataGuardType : String
  dbRole : String
  dbUniqueName : String
  id : String
deriving DecidableEq, Repr

/-- A node of the oracleDatabases name query response (lines 63-91); the
dataGuardGroup field is null for databases outside a Data Guard pairing. -/
structure OracleDbNode where
  name : String
  id : String
  cluster : ClusterInfo
  dataGuardType : String
  dataGuardGroup : Option DataGuardGroupInfo
  dbRole : String
  dbUniqueName : String
  isLiveMount : Bool
  isRelic : Bool
  physicalPath : List PathNode
deriving DecidableEq, Repr

/-- A descendant node of a Data Guard group in the fallback query response
(lines 162-189). -/
structure DgDescendantNode where
  cluster : ClusterNameId
  id : String
  name : String
  dbUniqueName : String
  isRelic : Bool
  dbRole : String
  isLiveMount : Bool
deriving DecidableEq, Repr

/-- A Data Guard group node of the fallback query response (lines 145-194). -/
structure DgGroupNode where
  objectType : String
  name : String
  id : String
  cluster : ClusterInfo
  isRelic : Bool
  dbUniqueName : String
  dbRole : String
  dataGuardType : String
  dataGuardGroupId : String
  descendantConnection : List DgDescendantNode
deriving DecidableEq, Repr

/-- An element of the dg_ids working list (lines 238 and 283): the group or
member group id followed by the cluster id, name and timezone. -/
structure DgIdEntry where
  groupId : String
  clusterId : String
  clusterName : String
  timezone : String
deriving DecidableEq, Repr

/-- OracleDatabaseError raise sites inside get_oracle_db_id. -/
inductive DbError
  | noDatabaseFound (dbName : String)
  | multipleDgGroups (dbName : String)
  | multipleDatabasesSpecifyHost (dbName : String)
  | dbOnMultipleHosts (dbName : String)
deriving DecidableEq, Repr

/-- The fields of the resolved database object set by get_oracle_db_id. -/
structure ResolvedDb where
  id : String
  clusterId : String
  clusterName : String
  timezone : String
  dataguard : Bool
deriving DecidableEq, Repr

/-- Outcome of get_oracle_db_id: success, a raised OracleDatabaseError, or an
uncaught Python crash; error outcomes record whether delete_session ran. -/
inductive DbResolveOutcome
  | ok (r : ResolvedDb)
  | err (e : DbError) (sessionDeleted : Bool)
  | pyCrash (e : PyErr) (sessionDeleted : Bool)
deriving DecidableEq, Repr

/-- The four fields appended to dg_ids for a fallback match (line 238): the
group id and the cluster id, name and timezone of the group node. -/
def entryOfGroup (g : DgGroupNode) : DgIdEntry :=
  ⟨g.id, g.cluster.id, g.cluster.name, g.cluster.timezone⟩

/-- The dg_ids list of the fallback branch (lines 232-238): one entry per
descendant whose dbUniqueName equals the database name, built from the fields
of the enclosing group node. -/
def dgFallbackEntries (dgGroups : List DgGroupNode) (databaseName : String) :
    List DgIdEntry :=
  dgGroups.foldl (fun acc g =>
    g.descendantConnection.foldl (fun acc2 d =>
      if d.dbUniqueName = databaseName then
        acc2 ++ [entryOfGroup g]
      else acc2) acc) []

/-- The zero-direct-match fallback branch (lines 141-252): no entry raises the
not-found OracleDatabaseError (line 241); all entries equal collapses to the
one group (lines 242-246) unless the id is falsy (lines 250-252); distinct
entries raise the multiple-groups OracleDatabaseError (lines 247-249). Session
deletion precedes every raise. -/
def fallbackResolve (dgGroups : List DgGroupNode) (databaseName : String) :
    DbResolveOutcome :=
  match dgFallbackEntries dgGroups databaseName with
  | [] => .err (.noDatabaseFound databaseName) true
  | e :: rest =>
    if (e :: rest).count e = (e :: rest).length then
      if e.groupId = "" then .err (.noDatabaseFound databaseName) true
      else .ok ⟨e.groupId, e.clusterId, e.clusterName, e.timezone, true⟩
    else .err (.multipleDgGroups databaseName) true

/-- The single-candidate branch (lines 253-261): a DATA_GUARD_MEMBER resolves
to its group id (subscripting a null dataGuardGroup raises TypeError), any
other candidate resolves to its own id; cluster fields come from the node. -/
def resolveSingle (node : OracleDbNode) : DbResolveOutcome :=
  if node.dataGuardType = "DATA_GUARD_MEMBER" then
    match node.dataGuardGroup with
    | none => .pyCrash .typeErrorNoneNotSubscriptable false
    | some g => .ok ⟨g.id, node.cluster.id, node.cluster.name, node.cluster.timezone, true⟩
  else .ok ⟨node.id, node.cluster.id, node.cluster.name, node.cluster.timezone, false⟩

/-- Loop body of the host scan (lines 267-276): a physicalPath entry whose
name contains the host substring overwrites the resolved fields (group id and
dataguard flag for a DATA_GUARD_MEMBER, own id otherwise; the dataguard flag
is never reset by a later non-member assignment). -/
def hostScanStep (host : String) (node : OracleDbNode)
    (acc : Option ResolvedDb) (path : PathNode) : Except PyErr (Option ResolvedDb) :=
  if pyIn host path.name then
    if node.dataGuardType = "DATA_GUARD_MEMBER" then
      match node.dataGuardGroup with
      | none => .error .typeErrorNoneNotSubscriptable
      | some g =>
          .ok (some ⟨g.id, node.cluster.id, node.cluster.name, node.cluster.timezone, true⟩)
    else
      .ok (some ⟨node.id, node.cluster.id, node.cluster.name, node.cluster.timezone,
        match acc with | none => false | some r => r.dataguard⟩)
  else .ok acc

/-- One node of the host scan of lines 266-276: the inner loop over the
physicalPath entries of the candidate. -/
def hostScanNode (host : String) (node : OracleDbNode) (st : Option ResolvedDb) :
    Except PyErr (Option ResolvedDb) :=
  node.physicalPath.foldlM (hostScanStep host node) st

/-- The multiple-candidates branch with a host name (lines 264-276 followed by
lines 298-302): scan all candidates in order, the last substring match
winning. When nothing matched (or the assigned id is falsy), line 299 deletes
the session and the raise on lines 300-302 formats the message with the
variable hosts, which is only assigned in the other branch, so the statement
raises UnboundLocalError instead of the intended OracleDatabaseError. -/
def multiMatchHost (host : String) (nodes : List OracleDbNode) : DbResolveOutcome :=
  match nodes.foldlM (fun st node => hostScanNode host node st) none with
  | .error e => .pyCrash e false
  | .ok none => .pyCrash (.unboundLocalError "hosts") true
  | .ok (some r) =>
    if r.id = "" then .pyCrash (.unboundLocalError "hosts") true
    else .ok r

/-- The multiple-candidates branch without a host name (lines 277-302): build
dg_ids from the DATA_GUARD_MEMBER candidates only (lines 281-283); no entry
raises the specify-host OracleDatabaseError (lines 284-286); all entries equal
collapses to the one group (lines 287-292) unless the id is falsy, in which
case lines 298-302 raise with hosts bound to the empty list; distinct entries
raise the multiple-groups OracleDatabaseError (lines 293-297). -/
def multiMatchNoHost (databaseName : String) (nodes : List OracleDbNode) :
    DbResolveOutcome :=
  match nodes.foldlM (fun acc node =>
      if node.dataGuardType = "DATA_GUARD_MEMBER" then
        match node.dataGuardGroup with
        | none => Except.error PyErr.typeErrorNoneNotSubscriptable
        | some g =>
            Except.ok (acc ++
              [DgIdEntry.mk g.id node.cluster.id node.cluster.name node.cluster.timezone])
      else Except.ok acc) ([] : List DgIdEntry) with
  | .error e => .pyCrash e false
  | .ok [] => .err (.multipleDatabasesSpecifyHost databaseName) true
  | .ok (e :: rest) =>
    if (e :: rest).count e = (e :: rest).length then
      if e.groupId = "" then .err (.dbOnMultipleHosts databaseName) true
      else .ok ⟨e.groupId, e.clusterId, e.clusterName, e.timezone, true⟩
    else .err (.multipleDgGroups databaseName) true

/-- Embedding of OracleDatabase.get_oracle_db_id (lines 52-302) over the two
query responses: drop live mounts from the name matches (lines 136-139), then
dispatch on the number of remaining candidates (lines 141, 253, 262) and, for
several candidates, on whether a host name was supplied (line 264). -/
def get_oracle_db_id (allNameMatches : List OracleDbNode)
    (dgGroups : List DgGroupNode) (databaseName : String)
    (databaseHost : Option String) : DbResolveOutcome :=
  match allNameMatches.filter (fun n => n.isLiveMount = false) with
  | [] => fallbackResolve dgGroups databaseName
  | [node] => resolveSingle node
  | node1 :: node2 :: more =>
    match databaseHost with
    | some host => multiMatchHost host (node1 :: node2 :: more)
    | none => multiMatchNoHost databaseName (node1 :: node2 :: more)

/-! ## oracle_target.py: host and RAC target resolution (claim C8) -/

/-- A node of the OracleHosts query response (lines 64-79). -/
structure OracleHostNode where
  id : String
  name : String
  cluster : ClusterNameId
deriving DecidableEq, Repr

/-- A RAC cluster node entry (nodes subobject, lines 146-150). -/
structure RacNodeEntry where
  hostFid : String
  nodeName : String
  status : String
deriving DecidableEq, Repr

/-- A node of the OracleRacs query responses (lines 136-160 and 204-231). -/
structure OracleRacNode where
  name : String
  id : String
  nodes : List RacNodeEntry
  cluster : ClusterNameId
deriving DecidableEq, Repr

/-- OracleTargetError raise sites in oracle_target.py. -/
inductive TargetError
  | noHostsFound (name : String)
  | noRacsOnCluster (clusterId : String)
  | noRacsWithHost (name : String)
  | multipleRacsWithHost (name : String)
  | multipleRacs (name : String)
deriving DecidableEq, Repr

/-- Outcome of a target resolution: the resolved object id (with the RAC name
when applicable), a raised OracleTargetError, or an uncaught Python crash;
error outcomes record whether delete_session ran. -/
inductive TargetOutcome
  | ok (id : String) (racName : Option String)
  | err (e : TargetError) (sessionDeleted : Bool)
  | pyCrash (e : PyErr) (sessionDeleted : Bool)
deriving DecidableEq, Repr

/-- Embedding of OracleTarget.get_oracle_host_id (lines 53-123): zero matches
raise the not-found OracleTargetError after deleting the session (lines
102-104); one match resolves (lines 105-107); with several matches the first
loop iteration of line 112 evaluates self.self.cluster_id, and since the
object has no attribute self this raises AttributeError before any
cluster filtering or session deletion (the cluster_matches logic of lines
110-122 is unreachable). -/
def get_oracle_host_id (oracleHosts : List OracleHostNode)
    (name clusterId : String) : TargetOutcome :=
  match oracleHosts with
  | [] => .err (.noHostsFound name) true
  | [h] => .ok h.id none
  | _ :: _ :: _ => .pyCrash (.attributeError "self") false

/-- Embedding of OracleTarget.get_oracle_rac_id_by_host (lines 195-271) over
the cluster-wide RAC query response: an empty response raises the no-RACs
OracleTargetError (lines 249-251); otherwise every RAC is appended once per
cluster node whose name contains the target name case-insensitively (lines
254-258); zero, one and several matches raise not-found, resolve (taking
rac_name from the first element of the full response, line 266), and raise the
multiple-RACs OracleTargetError respectively. -/
def get_oracle_rac_id_by_host (oracleRacs : List OracleRacNode)
    (name clusterId : String) : TargetOutcome :=
  match oracleRacs with
  | [] => .err (.noRacsOnCluster clusterId) true
  | r0 :: _ =>
    let rac_matches := oracleRacs.foldl (fun acc rac =>
      rac.nodes.foldl (fun acc2 node =>
        if pyIn (pyLower name) (pyLower node.nodeName) then acc2 ++ [rac] else acc2)
        acc) []
    match rac_matches with
    | [] => .err (.noRacsWithHost name) true
    | [m] => .ok m.id (some r0.name)
    | _ :: _ :: _ => .err (.multipleRacsWithHost name) true

/-- Embedding of OracleTarget.get_oracle_rac_id (lines 125-193): zero exact
name matches escalate to the cluster-wide scan of get_oracle_rac_id_by_host
(line 184, with the broader query response passed separately); one match
resolves (lines 185-188); several matches delete the session and raise the
multiple OracleTargetError (lines 189-192). -/
def get_oracle_rac_id (oracleRacs fallbackRacs : List OracleRacNode)
    (name clusterId : String) : TargetOutcome :=
  match oracleRacs with
  | [] => get_oracle_rac_id_by_host fallbackRacs name clusterId
  | [r] => .ok r.id (some r.name)
  | _ :: _ :: _ => .err (.multipleRacs name) true

/-! ## Helper lemmas -/

theorem listInfix_eq_true_iff (n : List Char) (h : List Char) :
    listInfix n h = true ↔ n <:+: h := by
  induction h with
  | nil => simp [listInfix, List.isEmpty_iff, List.infix_nil]
  | cons c t ih =>
      simp [listInfix, Bool.or_eq_true, List.isPrefixOf_iff_prefix, ih,
        List.infix_cons_iff]

theorem pyIn_eq_true_iff (n h : String) : pyIn n h = true ↔ n.toList <:+: h.toList := by
  simp [pyIn, listInfix_eq_true_iff]

theorem toList_append_eq (s t : String) : (s ++ t).toList = s.toList ++ t.toList := by
  simp [String.toList, String.data_append]

theorem pyIn_left_append (s t : String) : pyIn s (s ++ t) = true := by
  rw [pyIn_eq_true_iff, toList_append_eq]
  exact (List.prefix_append s.toList t.toList).isInfix

theorem pyIn_right_append (s t : String) : pyIn t (s ++ t) = true := by
  rw [pyIn_eq_true_iff, toList_append_eq]
  exact (List.suffix_append s.toList t.toList).isInfix

theorem exceptOk_bind {ε α β : Type} (v : α) (f : α → Except ε β) :
    Except.ok v >>= f = f v := rfl

theorem concat_eq_concat_iff {α : Type} (xs ys : List α) (x y : α) :
    xs ++ [x] = ys ++ [y] ↔ xs = ys ∧ x = y := by
  constructor
  · intro h
    have h2 := congrArg List.reverse h
    simp at h2
    exact ⟨h2.2, h2.1⟩
  · rintro ⟨rfl, rfl⟩; rfl

/-! ## Claim C10: domain error construction exits the process -/

/-- C10: raising any domain error subclass of NoTraceBackWithLineNumber ends
the process from inside the inherited __init__ (which calls sys.exit), with
the formatted message containing the subclass name and the original message;
no exception object is ever propagated to a caller. -/
theorem c10_domain_errors_exit (cls : String) (hcls : cls ∈ domainErrorClasses)
    (line : Nat) (msg : String) :
    (∃ m, raiseDomainError cls line msg = .processExit m ∧
      pyIn cls m = true ∧ pyIn msg m = true) ∧
    ∀ c m, raiseDomainError cls line msg ≠ .propagated c m := by
  refine ⟨⟨formatNoTraceback cls line msg, rfl, ?_, ?_⟩, by intro c m h; cases h⟩
  · have h1 : formatNoTraceback cls line msg =
        cls ++ (" (line " ++ toString line ++ "): " ++ msg) := by
      simp [formatNoTraceback, String.append_assoc]
    rw [h1]
    exact pyIn_left_append cls (" (line " ++ toString line ++ "): " ++ msg)
  · have : formatNoTraceback cls line msg =
        (cls ++ " (line " ++ toString line ++ "): ") ++ msg := by
      simp [formatNoTraceback, String.append_assoc]
    rw [this]
    exact pyIn_right_append (cls ++ " (line " ++ toString line ++ "): ") msg

/-- Witness for C10 at the OracleDatabaseError class. -/
theorem c10_witness :
    (∃ m, raiseDomainError "OracleDatabaseError" 241 "No database found" =
        .processExit m ∧ pyIn "OracleDatabaseError" m = true ∧
        pyIn "No database found" m = true) ∧
    ∀ c m, raiseDomainError "OracleDatabaseError" 241 "No database found" ≠
        .propagated c m :=
  c10_domain_errors_exit "OracleDatabaseError" (by simp [domainErrorClasses]) 241
    "No database found"

/-! ## Claim C5: async wait with a zero timeout (code bug) -/

/-- C5 (code bug evaluation): with timeoutMinutes zero the while loop of
async_requests_wait never polls, oracle_request stays None, and line 187
raises TypeError without releasing the session, for every possible poll
behaviour, instead of the timeout error the claim describes; moreover the poll
expression actually written (line 182) raises AttributeError on the first
iteration whenever the loop does run, so the timeout error is unreachable for
a stuck request with any positive timeout as well. -/
theorem c5_wait_zero_timeout_crashes :
    (∀ poll, async_requests_wait poll 0 =
      ⟨.pyCrash .typeErrorNoneNotSubscriptable, false⟩) ∧
    async_requests_wait requestStatusPoll 1 =
      ⟨.pyCrash (.attributeError "cdm_timeout"), false⟩ := by
  exact ⟨fun poll => rfl, rfl⟩

/-! ## Claim C9: failure paths and session release (code bug) -/

/-- C9 (code bug evaluation): the async polling failure surfaces without the
session having been released. Calling async_requests_wait as written (its poll
raises AttributeError, and with a zero timeout the None subscript raises
TypeError) produces a Python crash with sessionDeleted false, contradicting
the claim that every failure path of async polling releases the session before
raising. -/
theorem c9_wait_failure_without_release :
    (∃ e, (async_requests_wait requestStatusPoll 3).result = .pyCrash e) ∧
    (async_requests_wait requestStatusPoll 3).sessionDeleted = false ∧
    (∃ e, (async_requests_wait requestStatusPoll 0).result = .pyCrash e) ∧
    (async_requests_wait requestStatusPoll 0).sessionDeleted = false := by
  exact ⟨⟨.attributeError "cdm_timeout", rfl⟩, rfl,
    ⟨.typeErrorNoneNotSubscriptable, rfl⟩, rfl⟩

/-! ## Claim C8: multi-match host target resolution crashes (code bug) -/

/-- Concrete host nodes: two hosts share the target name. -/
def c8HostA : OracleHostNode :=
  ⟨"host-id-a", "oradb01.example.com", ⟨"cluster-a", "c1"⟩⟩

/-- Second concrete host node for the C8 failing input. -/
def c8HostB : OracleHostNode :=
  ⟨"host-id-b", "oradb01.example.com", ⟨"cluster-b", "c2"⟩⟩

/-- C8 (code bug evaluation): with more than one host name match the loop of
line 111-112 evaluates self.self.cluster_id and raises AttributeError at once,
without session release, instead of filtering by cluster and reporting
ambiguity with an OracleTargetError as the claim requires; the RAC fallback
scan by case-insensitive node-name substring behaves as claimed on the same
shape of input. -/
theorem c8_multi_host_match_crashes :
    get_oracle_host_id [c8HostA, c8HostB] "oradb01.example.com" "c1" =
      .pyCrash (.attributeError "self") false ∧
    get_oracle_rac_id []
        [⟨"rac1", "rac-id-1", [⟨"hf1", "ORADB01.example.com", "CONNECTED"⟩],
          ⟨"cluster-a", "c1"⟩⟩]
        "oradb01" "c1" =
      .ok "rac-id-1" (some "rac1") := by
  constructor
  · rfl
  · decide

/-! ## Claim C6: non-200 token responses (corrected) -/

/-- Counterexample to C6 as stated: a 401 response whose body contains an
access_token field does not fail with AuthError; the token is stored and the
bearer header built, only a warning is logged. -/
theorem c6_counterexample :
    acquireToken ⟨401, [("access_token", "tok123")]⟩ =
      (some "Authentication error: Please provide valid credentials",
       .session "tok123" "Bearer tok123") := by
  decide

/-- C6 amended: session open fails with AuthError exactly when the response
body lacks an access-token field, independently of the HTTP status (a non-200
status is only mapped through the fixed table and logged); whenever the body
carries a token, the token is stored and the bearer header built, even on a
non-200 status. -/
theorem c6_amended_token_presence_decides (resp : TokenResponse) :
    ((acquireToken resp).2 =
        .authError "Unable to obtain access token from RSC." ↔
      lookupDict resp.body "access_token" = none) ∧
    (∀ tok, lookupDict resp.body "access_token" = some tok →
      (acquireToken resp).2 = .session tok ("Bearer " ++ tok)) := by
  unfold acquireToken
  rcases h : lookupDict resp.body "access_token" with _ | tok <;> simp [h]

/-- Witness for the amended C6 at a concrete response. -/
theorem c6_amended_witness :
    (acquireToken ⟨200, [("access_token", "t0")]⟩).2 =
      .session "t0" ("Bearer " ++ "t0") :=
  (c6_amended_token_presence_decides ⟨200, [("access_token", "t0")]⟩).2 "t0" rfl

/-! ## Claim C7: missing credentials before any network call (corrected) -/

/-- Counterexample to C7 as stated: a key file that exists but lacks the
client_id field makes line 107 subscript the loaded dict and raise KeyError,
not the AuthError of line 120, although the credential is unset in both the
file and the environment. -/
theorem c7_counterexample :
    rubrikConnectionInit (some []) (fun _ => none) = .pyCrash (.keyError "client_id") := by
  rfl

/-! ## Claim C3: resolution with exactly one candidate -/

/-- C3: with exactly one non-live-mount candidate, a non-Data-Guard candidate
resolves to its own object id with the dataguard flag clear, while a
DATA_GUARD_MEMBER candidate resolves to the id of its owning Data Guard group
with the dataguard flag set; cluster fields always come from the candidate. -/
theorem c3_single_candidate (all : List OracleDbNode) (dgs : List DgGroupNode)
    (dbName : String) (host : Option String) (node : OracleDbNode)
    (hone : all.filter (fun n => n.isLiveMount = false) = [node]) :
    (node.dataGuardType ≠ "DATA_GUARD_MEMBER" →
      get_oracle_db_id all dgs dbName host =
        .ok ⟨node.id, node.cluster.id, node.cluster.name, node.cluster.timezone, false⟩) ∧
    (∀ g, node.dataGuardType = "DATA_GUARD_MEMBER" → node.dataGuardGroup = some g →
      get_oracle_db_id all dgs dbName host =
        .ok ⟨g.id, node.cluster.id, node.cluster.name, node.cluster.timezone, true⟩) := by
  constructor
  · intro hne
    simp only [get_oracle_db_id, hone, resolveSingle]
    simp [hne]
  · intro g hdg hgrp
    simp only [get_oracle_db_id, hone, resolveSingle]
    simp [hdg, hgrp]

/-- Concrete single Data Guard member candidate for the C3 witness. -/
def c3Node : OracleDbNode :=
  { name := "ORCL", id := "member-id",
    cluster := ⟨"cluster-a", "c1", "UTC"⟩,
    dataGuardType := "DATA_GUARD_MEMBER",
    dataGuardGroup := some ⟨"DATA_GUARD_GROUP", "PRIMARY", "ORCL", "dg-9"⟩,
    dbRole := "PRIMARY", dbUniqueName := "ORCL",
    isLiveMount := false, isRelic := false,
    physicalPath := [⟨"f1", "oradb01.example.com", "OracleHost"⟩] }

/-- Witness for C3: the single Data Guard member resolves to its group id. -/
theorem c3_witness :
    get_oracle_db_id [c3Node] [] "ORCL" none =
      .ok ⟨"dg-9", "c1", "cluster-a", "UTC", true⟩ :=
  (c3_single_candidate [c3Node] [] "ORCL" none c3Node rfl).2
    ⟨"DATA_GUARD_GROUP", "PRIMARY", "ORCL", "dg-9"⟩ rfl rfl

/-! ## Claim C1: multi-match resolution with a host name (corrected) -/

/-- First concrete candidate for C1: plain database on host1. -/
def c1NodeA : OracleDbNode :=
  { name := "ORCL", id := "idA",
    cluster := ⟨"cluster-a", "c1", "UTC"⟩,
    dataGuardType := "NON_DATA_GUARD", dataGuardGroup := none,
    dbRole := "PRIMARY", dbUniqueName := "ORCLA",
    isLiveMount := false, isRelic := false,
    physicalPath := [⟨"f1", "host1.example.com", "OracleHost"⟩] }

/-- Second concrete candidate for C1: another plain database whose physical
path also contains the host substring. -/
def c1NodeB : OracleDbNode :=
  { name := "ORCL", id := "idB",
    cluster := ⟨"cluster-a", "c1", "UTC"⟩,
    dataGuardType := "NON_DATA_GUARD", dataGuardGroup := none,
    dbRole := "PRIMARY", dbUniqueName := "ORCLB",
    isLiveMount := false, isRelic := false,
    physicalPath := [⟨"f2", "host1.example.com", "OracleHost"⟩] }

/-- Counterexample to C1 as stated: two candidates both have a physical path
containing the supplied host substring, yet resolution does not fail with
AmbiguousError; it silently resolves to the second (last-scanned) candidate. -/
theorem c1_counterexample :
    get_oracle_db_id [c1NodeA, c1NodeB] [] "ORCL" (some "host1") =
      .ok ⟨"idB", "c1", "cluster-a", "UTC", false⟩ := by
  decide

/-! ## Claim C4: multi-match resolution without a host name (corrected) -/

/-- First concrete candidate for C4: a standalone (non Data Guard) database. -/
def c4NodeA : OracleDbNode :=
  { name := "ORCL", id := "idA",
    cluster := ⟨"cluster-a", "c1", "UTC"⟩,
    dataGuardType := "NON_DATA_GUARD", dataGuardGroup := none,
    dbRole := "PRIMARY", dbUniqueName := "ORCLA",
    isLiveMount := false, isRelic := false,
    physicalPath := [⟨"f1", "host1.example.com", "OracleHost"⟩] }

/-- Second concrete candidate for C4: a Data Guard member of group dg-123. -/
def c4NodeB : OracleDbNode :=
  { name := "ORCL", id := "idB",
    cluster := ⟨"cluster-a", "c1", "UTC"⟩,
    dataGuardType := "DATA_GUARD_MEMBER",
    dataGuardGroup := some ⟨"DATA_GUARD_GROUP", "SECONDARY", "ORCLDR", "dg-123"⟩,
    dbRole := "SECONDARY", dbUniqueName := "ORCLDR",
    isLiveMount := false, isRelic := false,
    physicalPath := [⟨"f2", "host2.example.com", "OracleHost"⟩] }

/-- Counterexample to C4 as stated: of the two candidates one is standalone
and one is a Data Guard member, so not all candidates belong to the same
pairing, yet resolution does not fail with AmbiguousError; it collapses to the
group of the single member because non-member candidates are ignored by the
same-group check. -/
theorem c4_counterexample :
    get_oracle_db_id [c4NodeA, c4NodeB] [] "ORCL" none =
      .ok ⟨"dg-123", "c1", "cluster-a", "UTC", true⟩ := by
  decide

/-! ## Dictionary lemmas for the C7 amendment -/

theorem lookupDict_cons {α : Type} (p : String × α) (t : List (String × α))
    (k : String) :
    lookupDict (p :: t) k = if p.fst = k then some p.snd else lookupDict t k := by
  by_cases h : p.fst = k <;> simp [lookupDict, List.find?, h]

theorem lookupDict_setDict_self {α : Type} (d : List (String × α)) (k : String)
    (v : α) : lookupDict (setDict d k v) k = some v := by
  induction d with
  | nil => simp [setDict, lookupDict_cons]
  | cons p t ih =>
      by_cases h : p.fst = k
      · simp [setDict, h, lookupDict_cons]
      · simp [setDict, h, lookupDict_cons, ih]

theorem lookupDict_setDict_ne {α : Type} (d : List (String × α)) (k k2 : String)
    (v : α) (h : k2 ≠ k) : lookupDict (setDict d k v) k2 = lookupDict d k2 := by
  have hk : ¬ (k = k2) := fun hk => h hk.symm
  induction d with
  | nil => simp [setDict, lookupDict_cons, lookupDict, hk]
  | cons p t ih =>
      by_cases hp : p.fst = k
      · rw [setDict]
        simp only [hp, if_true]
        rw [lookupDict_cons, lookupDict_cons]
        simp [hk, hp]
      · rw [setDict]
        simp only [hp, if_false]
        rw [lookupDict_cons, lookupDict_cons, ih]

theorem lookupDict_map_normalize (kvs : KeyfileJson) (k : String) :
    lookupDict (kvs.map (fun p => (p.fst, normalizeSetting p.snd))) k =
      (lookupDict kvs k).map normalizeSetting := by
  induction kvs with
  | nil => simp [lookupDict]
  | cons p t ih =>
      by_cases h : p.fst = k <;>
        simp [List.map_cons, lookupDict_cons, h, ih]

theorem normalizeSetting_some_ne_empty (w : Option String) (v : String)
    (h : normalizeSetting w = some v) : v ≠ "" := by
  cases w with
  | none => simp [normalizeSetting] at h
  | some s =>
      by_cases hs : pyStrip s = ""
      · simp [normalizeSetting, hs] at h
      · simp [normalizeSetting, hs] at h
        subst h
        intro hv
        rw [hv] at hs
        exact hs rfl

/-- Resolution of one credential slot by the env-fallback step: keep the
present value when truthy, take the fallback otherwise. -/
def pyResolve (v e : Option String) : Option String :=
  if pyTruthy v then v else e

theorem pyResolve_normalize (w : Option String) (e : Option String) :
    pyResolve (normalizeSetting w) e =
      (match normalizeSetting w with | some v => some v | none => e) := by
  rcases hn : normalizeSetting w with _ | v
  · simp [pyResolve, pyTruthy]
  · have hv : v ≠ "" := normalizeSetting_some_ne_empty w v hn
    simp [pyResolve, pyTruthy, hv]

theorem envFallbackKey_lookups (config : List (String × Option String))
    (e : Option String) (k : String) (v : Option String)
    (h : lookupDict config k = some v) :
    ∃ c2, envFallbackKey config e k = .ok c2 ∧
      lookupDict c2 k = some (pyResolve v e) ∧
      ∀ k2, k2 ≠ k → lookupDict c2 k2 = lookupDict config k2 := by
  by_cases hv : pyTruthy v
  · exact ⟨config, by simp [envFallbackKey, h, hv], by simp [h, pyResolve, hv],
      fun _ _ => rfl⟩
  · refine ⟨setDict config k e, by simp [envFallbackKey, h, hv], ?_,
      fun k2 hk2 => lookupDict_setDict_ne config k k2 e hk2⟩
    simp [lookupDict_setDict_self, pyResolve, hv]

/-! ## Claim C7 amended -/

/-- C7 amended: when the key file is absent, or is present and does contain
the client_id, client_secret and access_token_uri fields, then whenever one of
the three credentials is still unset (absent, null or blank in the file and
absent from the environment) after checking both sources, construction fails
with the RbsOracleConnectionError of line 120 before any network request. A
present key file that lacks one of the three fields instead crashes with
KeyError (see the counterexample), which is the only change forced on the
original claim. -/
theorem c7_amended_missing_cred_auth_error (kf : Option KeyfileJson)
    (env : String → Option String)
    (hkeys : ∀ kvs, kf = some kvs →
      (lookupDict kvs "client_id").isSome ∧ (lookupDict kvs "client_secret").isSome ∧
        (lookupDict kvs "access_token_uri").isSome)
    (hunset :
      pyTruthy (resolvedCred kf env "client_id" "rsc_client_id") = false ∨
      pyTruthy (resolvedCred kf env "client_secret" "rsc_client_secret") = false ∨
      pyTruthy (resolvedCred kf env "access_token_uri" "rsc_access_token_uri") = false) :
    rubrikConnectionInit kf env =
      .authError "No keyfile credentials found in keyfile or environmental variables" := by
  cases kf with
  | none =>
      have e1 : envFallbackKey (loadConfig none) (env "rsc_client_id") "client_id" =
          .ok [("client_id", env "rsc_client_id"), ("client_secret", none),
               ("name", none), ("access_token_uri", none)] := rfl
      have e2 : envFallbackKey
          [("client_id", env "rsc_client_id"), ("client_secret", none),
           ("name", none), ("access_token_uri", none)]
          (env "rsc_client_secret") "client_secret" =
          .ok [("client_id", env "rsc_client_id"),
               ("client_secret", env "rsc_client_secret"),
               ("name", none), ("access_token_uri", none)] := rfl
      have e3 : envFallbackKey
          [("client_id", env "rsc_client_id"),
           ("client_secret", env "rsc_client_secret"),
           ("name", none), ("access_token_uri", none)]
          (env "rsc_access_token_uri") "access_token_uri" =
          .ok [("client_id", env "rsc_client_id"),
               ("client_secret", env "rsc_client_secret"),
               ("name", none), ("access_token_uri", env "rsc_access_token_uri")] := rfl
      simp only [rubrikConnectionInit, e1, e2, e3]
      rw [if_pos]
      simp only [resolvedCred] at hunset
      rcases hunset with h | h | h
      · exact Or.inl (by simp [dictTruthy, lookupDict_cons, h])
      · exact Or.inr (Or.inl (by simp [dictTruthy, lookupDict_cons, h]))
      · exact Or.inr (Or.inr (by simp [dictTruthy, lookupDict_cons, h]))
  | some kvs =>
      obtain ⟨h1, h2, h3⟩ := hkeys kvs rfl
      obtain ⟨w1, hw1⟩ := Option.isSome_iff_exists.mp h1
      obtain ⟨w2, hw2⟩ := Option.isSome_iff_exists.mp h2
      obtain ⟨w3, hw3⟩ := Option.isSome_iff_exists.mp h3
      have hc1 : lookupDict (loadConfig (some kvs)) "client_id" =
          some (normalizeSetting w1) := by
        simp [loadConfig, lookupDict_map_normalize, hw1]
      have hc2 : lookupDict (loadConfig (some kvs)) "client_secret" =
          some (normalizeSetting w2) := by
        simp [loadConfig, lookupDict_map_normalize, hw2]
      have hc3 : lookupDict (loadConfig (some kvs)) "access_token_uri" =
          some (normalizeSetting w3) := by
        simp [loadConfig, lookupDict_map_normalize, hw3]
      obtain ⟨d1, he1, hl1, ho1⟩ :=
        envFallbackKey_lookups (loadConfig (some kvs)) (env "rsc_client_id")
          "client_id" (normalizeSetting w1) hc1
      have hd1cs : lookupDict d1 "client_secret" = some (normalizeSetting w2) := by
        rw [ho1 "client_secret" (by decide), hc2]
      have hd1at : lookupDict d1 "access_token_uri" = some (normalizeSetting w3) := by
        rw [ho1 "access_token_uri" (by decide), hc3]
      obtain ⟨d2, he2, hl2, ho2⟩ :=
        envFallbackKey_lookups d1 (env "rsc_client_secret") "client_secret"
          (normalizeSetting w2) hd1cs
      have hd2ci : lookupDict d2 "client_id" =
          some (pyResolve (normalizeSetting w1) (env "rsc_client_id")) := by
        rw [ho2 "client_id" (by decide), hl1]
      have hd2at : lookupDict d2 "access_token_uri" = some (normalizeSetting w3) := by
        rw [ho2 "access_token_uri" (by decide), hd1at]
      obtain ⟨d3, he3, hl3, ho3⟩ :=
        envFallbackKey_lookups d2 (env "rsc_access_token_uri") "access_token_uri"
          (normalizeSetting w3) hd2at
      have hf1 : lookupDict d3 "client_id" =
          some (pyResolve (normalizeSetting w1) (env "rsc_client_id")) := by
        rw [ho3 "client_id" (by decide), hd2ci]
      have hf2 : lookupDict d3 "client_secret" =
          some (pyResolve (normalizeSetting w2) (env "rsc_client_secret")) := by
        rw [ho3 "client_secret" (by decide), hl2]
      simp only [rubrikConnectionInit, he1, he2, he3]
      rw [if_pos]
      have hr1 : resolvedCred (some kvs) env "client_id" "rsc_client_id" =
          pyResolve (normalizeSetting w1) (env "rsc_client_id") := by
        simp [resolvedCred, hw1, pyResolve_normalize]
      have hr2 : resolvedCred (some kvs) env "client_secret" "rsc_client_secret" =
          pyResolve (normalizeSetting w2) (env "rsc_client_secret") := by
        simp [resolvedCred, hw2, pyResolve_normalize]
      have hr3 : resolvedCred (some kvs) env "access_token_uri" "rsc_access_token_uri" =
          pyResolve (normalizeSetting w3) (env "rsc_access_token_uri") := by
        simp [resolvedCred, hw3, pyResolve_normalize]
      rcases hunset with h | h | h
      · rw [hr1] at h
        exact Or.inl (by simp [dictTruthy, hf1, h])
      · rw [hr2] at h
        exact Or.inr (Or.inl (by simp [dictTruthy, hf2, h]))
      · rw [hr3] at h
        exact Or.inr (Or.inr (by simp [dictTruthy, hl3, h]))

/-- Witness for the amended C7: no key file and an empty environment fail with
the credentials AuthError before any network call. -/
theorem c7_amended_witness :
    rubrikConnectionInit none (fun _ => none) =
      .authError "No keyfile credentials found in keyfile or environmental variables" :=
  c7_amended_missing_cred_auth_error none (fun _ => none)
    (fun _ h => by cases h) (Or.inl rfl)

/-! ## Claim C2: the Data Guard group fallback search -/

/-- Specification-side list of fallback matches: one occurrence of the
enclosing group per descendant whose dbUniqueName equals the database name. -/
def fallbackMatchedGroups (dgGroups : List DgGroupNode) (databaseName : String) :
    List DgGroupNode :=
  dgGroups.flatMap (fun g =>
    (g.descendantConnection.filter (fun d => d.dbUniqueName = databaseName)).map
      (fun _ => g))

theorem foldl_append_entry (g : DgGroupNode) (databaseName : String)
    (l : List DgDescendantNode) (acc : List DgIdEntry) :
    l.foldl (fun acc2 d =>
      if d.dbUniqueName = databaseName then acc2 ++ [entryOfGroup g] else acc2) acc =
    acc ++ (l.filter (fun d => d.dbUniqueName = databaseName)).map
      (fun _ => entryOfGroup g) := by
  induction l generalizing acc with
  | nil => simp
  | cons d t ih =>
      by_cases hd : d.dbUniqueName = databaseName <;>
        simp [List.foldl_cons, List.filter_cons, hd, ih]

theorem dgFallbackEntries_eq (dgGroups : List DgGroupNode) (databaseName : String) :
    dgFallbackEntries dgGroups databaseName =
      (fallbackMatchedGroups dgGroups databaseName).map entryOfGroup := by
  suffices h : ∀ acc : List DgIdEntry,
      dgGroups.foldl (fun acc g =>
        g.descendantConnection.foldl (fun acc2 d =>
          if d.dbUniqueName = databaseName then acc2 ++ [entryOfGroup g] else acc2)
          acc) acc =
      acc ++ (fallbackMatchedGroups dgGroups databaseName).map entryOfGroup by
    simpa [dgFallbackEntries] using h []
  induction dgGroups with
  | nil => simp [fallbackMatchedGroups]
  | cons g t ih =>
      intro acc
      rw [List.foldl_cons, foldl_append_entry, ih]
      simp [fallbackMatchedGroups, List.flatMap_cons, List.map_append, List.map_map,
        List.append_assoc, Function.comp]

theorem mem_fallbackMatchedGroups (dgGroups : List DgGroupNode)
    (databaseName : String) (g : DgGroupNode)
    (hg : g ∈ fallbackMatchedGroups dgGroups databaseName) : g ∈ dgGroups := by
  simp only [fallbackMatchedGroups, List.mem_flatMap, List.mem_map] at hg
  obtain ⟨g2, hg2, _, _, rfl⟩ := hg
  exact hg2

/-- C2: with zero direct name matches, the fallback search resolves to the
pairing group exactly when every dbUniqueName match belongs to the same
pairing group: no match raises the not-found OracleDatabaseError, matches all
sharing one group id resolve to that group (its id and cluster data, with the
dataguard flag set), and matches spanning two or more distinct group ids raise
the multiple-groups OracleDatabaseError; every failure deletes the session
first. Assumes a well-formed catalog: group nodes with the same id carry the
same cluster data and group ids are nonempty. -/
theorem c2_fallback_same_group (all : List OracleDbNode) (dgs : List DgGroupNode)
    (dbName : String) (host : Option String)
    (hzero : all.filter (fun n => n.isLiveMount = false) = [])
    (hwf : ∀ g1 ∈ dgs, ∀ g2 ∈ dgs, g1.id = g2.id → g1.cluster = g2.cluster)
    (hids : ∀ g ∈ dgs, g.id ≠ "") :
    (fallbackMatchedGroups dgs dbName = [] →
      get_oracle_db_id all dgs dbName host = .err (.noDatabaseFound dbName) true) ∧
    (∀ g0 ∈ fallbackMatchedGroups dgs dbName,
      (∀ g ∈ fallbackMatchedGroups dgs dbName, g.id = g0.id) →
      get_oracle_db_id all dgs dbName host =
        .ok ⟨g0.id, g0.cluster.id, g0.cluster.name, g0.cluster.timezone, true⟩) ∧
    ((∃ g1 ∈ fallbackMatchedGroups dgs dbName,
        ∃ g2 ∈ fallbackMatchedGroups dgs dbName, g1.id ≠ g2.id) →
      get_oracle_db_id all dgs dbName host = .err (.multipleDgGroups dbName) true) := by
  have hres : get_oracle_db_id all dgs dbName host = fallbackResolve dgs dbName := by
    simp only [get_oracle_db_id, hzero]
  have hentry : ∀ g1 ∈ dgs, ∀ g2 ∈ dgs, g1.id = g2.id →
      entryOfGroup g1 = entryOfGroup g2 := by
    intro g1 h1 g2 h2 hid
    have hc := hwf g1 h1 g2 h2 hid
    simp [entryOfGroup, hid, hc]
  rw [hres]
  unfold fallbackResolve
  rw [dgFallbackEntries_eq]
  refine ⟨?_, ?_, ?_⟩
  · intro hnil
    rw [hnil]
    rfl
  · intro g0 hg0 hall
    rcases hms : fallbackMatchedGroups dgs dbName with _ | ⟨m, mt⟩
    · rw [hms] at hg0; cases hg0
    · simp only [List.map_cons]
      have hmem : m ∈ fallbackMatchedGroups dgs dbName := by rw [hms]; simp
      have hm0 : entryOfGroup m = entryOfGroup g0 :=
        hentry m (mem_fallbackMatchedGroups dgs dbName m hmem)
          g0 (mem_fallbackMatchedGroups dgs dbName g0 hg0)
          (by rw [hall m hmem])
      have hcount : (entryOfGroup m :: mt.map entryOfGroup).count (entryOfGroup m) =
          (entryOfGroup m :: mt.map entryOfGroup).length := by
        apply List.count_eq_length.mpr
        intro b hb
        rcases List.mem_cons.mp hb with hb | hb
        · rw [hb]
        · obtain ⟨g, hg, rfl⟩ := List.mem_map.mp hb
          have hgmem : g ∈ fallbackMatchedGroups dgs dbName := by rw [hms]; simp [hg]
          exact hentry m (mem_fallbackMatchedGroups dgs dbName m hmem)
            g (mem_fallbackMatchedGroups dgs dbName g hgmem)
            (by rw [hall m hmem, hall g hgmem])
      rw [if_pos hcount]
      have hne : (entryOfGroup m).groupId ≠ "" :=
        hids m (mem_fallbackMatchedGroups dgs dbName m hmem)
      rw [if_neg hne]
      rw [hm0]
      rfl
  · rintro ⟨g1, hg1, g2, hg2, hne⟩
    rcases hms : fallbackMatchedGroups dgs dbName with _ | ⟨m, mt⟩
    · rw [hms] at hg1; cases hg1
    · simp only [List.map_cons]
      have hcount : ¬ ((entryOfGroup m :: mt.map entryOfGroup).count (entryOfGroup m) =
          (entryOfGroup m :: mt.map entryOfGroup).length) := by
        intro hc
        have hall := List.count_eq_length.mp hc
        have hin1 : entryOfGroup g1 ∈ entryOfGroup m :: mt.map entryOfGroup := by
          rw [← List.map_cons, ← hms]
          exact List.mem_map_of_mem entryOfGroup hg1
        have hin2 : entryOfGroup g2 ∈ entryOfGroup m :: mt.map entryOfGroup := by
          rw [← List.map_cons, ← hms]
          exact List.mem_map_of_mem entryOfGroup hg2
        have e1 := hall (entryOfGroup g1) hin1
        have e2 := hall (entryOfGroup g2) hin2
        have : (entryOfGroup g1).groupId = (entryOfGroup g2).groupId := by
          rw [← e1, ← e2]
        exact hne this
      rw [if_neg hcount]

/-- Concrete Data Guard group for the C2 witness: one group, two member
descendants whose dbUniqueName matches the searched database name. -/
def c2Group : DgGroupNode :=
  { objectType := "ORACLE_DATA_GUARD_GROUP", name := "ORCL_DG",
    id := "dg-1", cluster := ⟨"cluster-a", "c1", "UTC"⟩,
    isRelic := false, dbUniqueName := "ORCL", dbRole := "PRIMARY",
    dataGuardType := "DATA_GUARD_GROUP", dataGuardGroupId := "dg-1",
    descendantConnection :=
      [⟨⟨"cluster-a", "c1"⟩, "m1", "ORCL", "ORCL", false, "PRIMARY", false⟩,
       ⟨⟨"cluster-a", "c1"⟩, "m2", "ORCL", "ORCL", false, "SECONDARY", false⟩] }

/-- Witness for C2: both fallback matches are in the same group, so
resolution returns that group. -/
theorem c2_witness :
    get_oracle_db_id [] [c2Group] "ORCL" none =
      .ok ⟨"dg-1", "c1", "cluster-a", "UTC", true⟩ :=
  (c2_fallback_same_group [] [c2Group] "ORCL" none rfl
      (by decide) (by decide)).2.1 c2Group (by decide) (by decide)

/-! ## Claim C4 amended: the no-host multi-match collapse -/

/-- Group id recorded for a Data Guard member candidate (the embedding crashes
on a null group instead of producing the empty default). -/
def memberGroupId (n : OracleDbNode) : String :=
  match n.dataGuardGroup with
  | some g => g.id
  | none => ""

/-- The dg_ids entry built for a member candidate (line 283): its group id and
the cluster fields of the candidate itself. -/
def memberEntry (n : OracleDbNode) : DgIdEntry :=
  ⟨memberGroupId n, n.cluster.id, n.cluster.name, n.cluster.timezone⟩

theorem noHostFoldM (nodes : List OracleDbNode)
    (hgroups : ∀ n ∈ nodes, n.dataGuardType = "DATA_GUARD_MEMBER" →
      (n.dataGuardGroup).isSome) :
    ∀ acc : List DgIdEntry,
      nodes.foldlM (fun acc node =>
        if node.dataGuardType = "DATA_GUARD_MEMBER" then
          match node.dataGuardGroup with
          | none => Except.error PyErr.typeErrorNoneNotSubscriptable
          | some g =>
              Except.ok (acc ++
                [DgIdEntry.mk g.id node.cluster.id node.cluster.name node.cluster.timezone])
        else Except.ok acc) acc =
      Except.ok (acc ++
        (nodes.filter (fun n => n.dataGuardType = "DATA_GUARD_MEMBER")).map memberEntry) := by
  induction nodes with
  | nil =>
      intro acc
      simp
      rfl
  | cons n t ih =>
      intro acc
      have iht := ih (fun x hx => hgroups x (List.mem_cons_of_mem n hx))
      by_cases hdg : n.dataGuardType = "DATA_GUARD_MEMBER"
      · obtain ⟨g, hg⟩ := Option.isSome_iff_exists.mp
          (hgroups n (List.mem_cons_self n t) hdg)
        rw [List.foldlM_cons]
        simp only [hdg, if_true, hg]
        rw [show ∀ (v : List DgIdEntry)
            (f : List DgIdEntry → Except PyErr (List DgIdEntry)),
            Except.ok v >>= f = f v from fun _ _ => rfl]
        rw [iht]
        simp [List.filter_cons, hdg, memberEntry, memberGroupId, hg]
      · rw [List.foldlM_cons]
        simp only [hdg, if_false]
        rw [show ∀ (v : List DgIdEntry)
            (f : List DgIdEntry → Except PyErr (List DgIdEntry)),
            Except.ok v >>= f = f v from fun _ _ => rfl]
        rw [iht]
        simp [List.filter_cons, hdg]

/-- C4 amended: with several candidates and no host name, resolution collapses
to a Data Guard pairing exactly when at least one candidate is a
DATA_GUARD_MEMBER and all member candidates produce the same dg_ids entry
(same group id and same candidate cluster data); candidates that are not
members are ignored by this check. With no member candidate it raises the
specify-host OracleDatabaseError, and with member entries that differ it
raises the multiple-groups OracleDatabaseError; every failure deletes the
session first. -/
theorem c4_amended_member_entries_decide (all : List OracleDbNode)
    (dgs : List DgGroupNode) (dbName : String)
    (node1 node2 : OracleDbNode) (more : List OracleDbNode)
    (hfilter : all.filter (fun n => n.isLiveMount = false) = node1 :: node2 :: more)
    (hgroups : ∀ n ∈ node1 :: node2 :: more,
      n.dataGuardType = "DATA_GUARD_MEMBER" → (n.dataGuardGroup).isSome) :
    ((node1 :: node2 :: more).filter
        (fun n => n.dataGuardType = "DATA_GUARD_MEMBER") = [] →
      get_oracle_db_id all dgs dbName none =
        .err (.multipleDatabasesSpecifyHost dbName) true) ∧
    (∀ m0 ∈ (node1 :: node2 :: more).filter
        (fun n => n.dataGuardType = "DATA_GUARD_MEMBER"),
      (∀ m ∈ (node1 :: node2 :: more).filter
          (fun n => n.dataGuardType = "DATA_GUARD_MEMBER"),
        memberEntry m = memberEntry m0) →
      memberGroupId m0 ≠ "" →
      get_oracle_db_id all dgs dbName none =
        .ok ⟨memberGroupId m0, m0.cluster.id, m0.cluster.name,
          m0.cluster.timezone, true⟩) ∧
    ((∃ m1 ∈ (node1 :: node2 :: more).filter
        (fun n => n.dataGuardType = "DATA_GUARD_MEMBER"),
      ∃ m2 ∈ (node1 :: node2 :: more).filter
        (fun n => n.dataGuardType = "DATA_GUARD_MEMBER"),
        memberEntry m1 ≠ memberEntry m2) →
      get_oracle_db_id all dgs dbName none = .err (.multipleDgGroups dbName) true) := by
  have hres : get_oracle_db_id all dgs dbName none =
      multiMatchNoHost dbName (node1 :: node2 :: more) := by
    simp only [get_oracle_db_id, hfilter]
  rw [hres]
  unfold multiMatchNoHost
  rw [noHostFoldM (node1 :: node2 :: more) hgroups []]
  simp only [List.nil_append]
  refine ⟨?_, ?_, ?_⟩
  · intro hnil
    rw [hnil]
    rfl
  · intro m0 hm0 hall hne
    rcases hms : (node1 :: node2 :: more).filter
        (fun n => n.dataGuardType = "DATA_GUARD_MEMBER") with _ | ⟨m, mt⟩
    · rw [hms] at hm0; cases hm0
    · rw [hms]
      simp only [List.map_cons]
      have hmmem : m ∈ (node1 :: node2 :: more).filter
          (fun n => n.dataGuardType = "DATA_GUARD_MEMBER") := by rw [hms]; simp
      have hcount : (memberEntry m :: mt.map memberEntry).count (memberEntry m) =
          (memberEntry m :: mt.map memberEntry).length := by
        apply List.count_eq_length.mpr
        intro b hb
        rcases List.mem_cons.mp hb with hb | hb
        · rw [hb]
        · obtain ⟨x, hx, rfl⟩ := List.mem_map.mp hb
          have hxmem : x ∈ (node1 :: node2 :: more).filter
              (fun n => n.dataGuardType = "DATA_GUARD_MEMBER") := by
            rw [hms]; simp [hx]
          rw [hall m hmmem, hall x hxmem]
      rw [if_pos hcount]
      have hm0e : memberEntry m = memberEntry m0 := hall m hmmem
      have hgid : (memberEntry m).groupId ≠ "" := by
        rw [hm0e]; exact hne
      rw [if_neg hgid]
      rw [hm0e]
      rfl
  · rintro ⟨m1, hm1, m2, hm2, hne⟩
    rcases hms : (node1 :: node2 :: more).filter
        (fun n => n.dataGuardType = "DATA_GUARD_MEMBER") with _ | ⟨m, mt⟩
    · rw [hms] at hm1; cases hm1
    · rw [hms]
      simp only [List.map_cons]
      have hcount : ¬ ((memberEntry m :: mt.map memberEntry).count (memberEntry m) =
          (memberEntry m :: mt.map memberEntry).length) := by
        intro hc
        have hall := List.count_eq_length.mp hc
        have hin1 : memberEntry m1 ∈ memberEntry m :: mt.map memberEntry := by
          rw [← List.map_cons, ← hms]
          exact List.mem_map_of_mem memberEntry hm1
        have hin2 : memberEntry m2 ∈ memberEntry m :: mt.map memberEntry := by
          rw [← List.map_cons, ← hms]
          exact List.mem_map_of_mem memberEntry hm2
        exact hne ((hall (memberEntry m1) hin1).symm.trans (hall (memberEntry m2) hin2))
      rw [if_neg hcount]

/-- First Data Guard member candidate for the C4 witness (group dg-123). -/
def c4wNodeA : OracleDbNode :=
  { name := "ORCL", id := "idA",
    cluster := ⟨"cluster-a", "c1", "UTC"⟩,
    dataGuardType := "DATA_GUARD_MEMBER",
    dataGuardGroup := some ⟨"DATA_GUARD_GROUP", "PRIMARY", "ORCL", "dg-123"⟩,
    dbRole := "PRIMARY", dbUniqueName := "ORCL",
    isLiveMount := false, isRelic := false,
    physicalPath := [⟨"f1", "host1.example.com", "OracleHost"⟩] }

/-- Second Data Guard member candidate for the C4 witness (same group). -/
def c4wNodeB : OracleDbNode :=
  { name := "ORCL", id := "idB",
    cluster := ⟨"cluster-a", "c1", "UTC"⟩,
    dataGuardType := "DATA_GUARD_MEMBER",
    dataGuardGroup := some ⟨"DATA_GUARD_GROUP", "SECONDARY", "ORCLDR", "dg-123"⟩,
    dbRole := "SECONDARY", dbUniqueName := "ORCLDR",
    isLiveMount := false, isRelic := false,
    physicalPath := [⟨"f2", "host2.example.com", "OracleHost"⟩] }

/-- Witness for the amended C4: two member candidates of the same group
collapse to the group id with the dataguard flag set. -/
theorem c4_amended_witness :
    get_oracle_db_id [c4wNodeA, c4wNodeB] [] "ORCL" none =
      .ok ⟨"dg-123", "c1", "cluster-a", "UTC", true⟩ :=
  (c4_amended_member_entries_decide [c4wNodeA, c4wNodeB] [] "ORCL"
      c4wNodeA c4wNodeB [] rfl (by decide)).2.1 c4wNodeA (by decide)
    (by decide) (by decide)

/-! ## Claim C1 amended: the host scan over multiple candidates -/

/-- Whether a candidate has some physical path entry whose name contains the
host substring (the inner loop condition of lines 266-268). -/
def nodeHostMatch (host : String) (n : OracleDbNode) : Bool :=
  n.physicalPath.any (fun p => pyIn host p.name)

/-- The object id the host scan assigns for a matching candidate: the member
group id for a DATA_GUARD_MEMBER, the own id otherwise (lines 269-273). -/
def specAssignedId (n : OracleDbNode) : String :=
  if n.dataGuardType = "DATA_GUARD_MEMBER" then memberGroupId n else n.id

/-- The current dataguard flag carried through the host scan. -/
def stateDg : Option ResolvedDb → Bool
  | none => false
  | some r => r.dataguard

/-- The resolved record a matching candidate writes, given the dataguard flag
in force before the assignment (a member sets it, others leave it). -/
def assignOf (n : OracleDbNode) (dg : Bool) : ResolvedDb :=
  ⟨specAssignedId n, n.cluster.id, n.cluster.name, n.cluster.timezone,
    if n.dataGuardType = "DATA_GUARD_MEMBER" then true else dg⟩

/-- Recursive description of the full host scan of lines 266-276: process the
candidates in order, a matching candidate overwriting the state. -/
def scanResult (host : String) : List OracleDbNode → Option ResolvedDb → Option ResolvedDb
  | [], st => st
  | n :: ns, st =>
      scanResult host ns
        (if nodeHostMatch host n then some (assignOf n (stateDg st)) else st)

theorem assignOf_idem (n : OracleDbNode) (d : Bool) :
    assignOf n (stateDg (some (assignOf n d))) = assignOf n d := by
  simp only [stateDg, assignOf]
  by_cases h : n.dataGuardType = "DATA_GUARD_MEMBER" <;> simp [h]

theorem hostScanPaths (host : String) (n : OracleDbNode)
    (hg : n.dataGuardType = "DATA_GUARD_MEMBER" → (n.dataGuardGroup).isSome)
    (paths : List PathNode) :
    ∀ acc : Option ResolvedDb,
      paths.foldlM (hostScanStep host n) acc =
      Except.ok (if paths.any (fun p => pyIn host p.name) then
        some (assignOf n (stateDg acc)) else acc) := by
  induction paths with
  | nil => intro acc; rfl
  | cons p ps ih =>
      intro acc
      rw [List.foldlM_cons]
      by_cases hp : pyIn host p.name
      · have hstep : hostScanStep host n acc p =
            Except.ok (some (assignOf n (stateDg acc))) := by
          by_cases hdg : n.dataGuardType = "DATA_GUARD_MEMBER"
          · obtain ⟨g, hgr⟩ := Option.isSome_iff_exists.mp (hg hdg)
            simp [hostScanStep, hp, hdg, hgr, assignOf, specAssignedId, memberGroupId]
          · cases acc <;>
              simp [hostScanStep, hp, hdg, assignOf, specAssignedId, stateDg]
        rw [hstep]
        simp only [exceptOk_bind]
        rw [ih]
        by_cases hany : ps.any (fun p => pyIn host p.name) <;>
          simp [hany, hp, assignOf_idem, List.any_cons]
      · have hstep : hostScanStep host n acc p = Except.ok acc := by
          simp [hostScanStep, hp]
        rw [hstep]
        simp only [exceptOk_bind]
        rw [ih]
        simp [List.any_cons, hp]

theorem hostScanNode_ok (host : String) (n : OracleDbNode)
    (hg : n.dataGuardType = "DATA_GUARD_MEMBER" → (n.dataGuardGroup).isSome)
    (st : Option ResolvedDb) :
    hostScanNode host n st =
      .ok (if nodeHostMatch host n then some (assignOf n (stateDg st)) else st) :=
  hostScanPaths host n hg n.physicalPath st

theorem multiHostFoldM (host : String) (nodes : List OracleDbNode)
    (hgroups : ∀ n ∈ nodes, n.dataGuardType = "DATA_GUARD_MEMBER" →
      (n.dataGuardGroup).isSome) :
    ∀ st : Option ResolvedDb,
      nodes.foldlM (fun st node => hostScanNode host node st) st =
        .ok (scanResult host nodes st) := by
  induction nodes with
  | nil => intro st; rfl
  | cons n t ih =>
      intro st
      rw [List.foldlM_cons,
        hostScanNode_ok host n (hgroups n (List.mem_cons_self n t))]
      rw [show ∀ (v : Option ResolvedDb)
          (f : Option ResolvedDb → Except PyErr (Option ResolvedDb)),
          Except.ok v >>= f = f v from fun _ _ => rfl]
      rw [ih (fun x hx => hgroups x (List.mem_cons_of_mem n hx))]
      rfl

theorem scanResult_append (host : String) (xs ys : List OracleDbNode) :
    ∀ st, scanResult host (xs ++ ys) st = scanResult host ys (scanResult host xs st) := by
  induction xs with
  | nil => intro st; rfl
  | cons n t ih => intro st; simp [scanResult, ih]

theorem scanResult_spec (host : String) (nodes : List OracleDbNode) :
    ∀ st : Option ResolvedDb,
      (nodes.filter (nodeHostMatch host) = [] → scanResult host nodes st = st) ∧
      (∀ ms m, nodes.filter (nodeHostMatch host) = ms ++ [m] →
        scanResult host nodes st =
          some ⟨specAssignedId m, m.cluster.id, m.cluster.name, m.cluster.timezone,
            stateDg st || (nodes.filter (nodeHostMatch host)).any
              (fun n => n.dataGuardType = "DATA_GUARD_MEMBER")⟩) := by
  induction nodes using List.reverseRecOn with
  | nil =>
      intro st
      refine ⟨fun _ => rfl, fun ms m hms => ?_⟩
      simp at hms
  | append_singleton xs n ih =>
      intro st
      rw [List.filter_append]
      by_cases hn : nodeHostMatch host n
      · have h1 : List.filter (nodeHostMatch host) [n] = [n] := by simp [hn]
        rw [h1]
        constructor
        · intro hcontra
          simp at hcontra
        · intro ms m hms
          obtain ⟨hxs, rfl⟩ := (concat_eq_concat_iff _ _ _ _).mp hms.symm
          rw [scanResult_append host xs [m] st]
          rcases List.eq_nil_or_concat' (xs.filter (nodeHostMatch host)) with
            hfx | ⟨ms0, m0, hfx⟩
          · have hxs_res : scanResult host xs st = st := (ih st).1 hfx
            rw [hxs_res]
            simp only [scanResult, hn, if_true]
            rw [hfx]
            by_cases hdg : m.dataGuardType = "DATA_GUARD_MEMBER" <;>
              simp [assignOf, hdg, Bool.or_assoc]
          · have hxs_res := (ih st).2 ms0 m0 hfx
            rw [hxs_res]
            simp only [scanResult, hn, if_true]
            rw [hfx]
            by_cases hdg : m.dataGuardType = "DATA_GUARD_MEMBER" <;>
              simp [assignOf, stateDg, hdg, List.any_append, Bool.or_assoc]
      · have h1 : List.filter (nodeHostMatch host) [n] = [] := by simp [hn]
        rw [h1, List.append_nil]
        constructor
        · intro hfx
          rw [scanResult_append host xs [n] st]
          simp only [scanResult, hn, if_false]
          exact (ih st).1 hfx
        · intro ms m hms
          rw [scanResult_append host xs [n] st]
          simp only [scanResult, hn, if_false]
          exact (ih st).2 ms m hms

/-- C1 amended: with several candidates and a host name, the scan assigns the
resolved object for every candidate whose physical path contains the host
substring, in candidate order, so the last matching candidate wins (a
DATA_GUARD_MEMBER match contributes its group id and sets the dataguard flag,
which a later non-member match does not clear); with no matching candidate the
session is released and the raise of lines 300-302 crashes with
UnboundLocalError on the variable hosts instead of a clean not-found
OracleDatabaseError. -/
theorem c1_amended_last_match_wins (all : List OracleDbNode)
    (dgs : List DgGroupNode) (dbName host : String)
    (node1 node2 : OracleDbNode) (more : List OracleDbNode)
    (hfilter : all.filter (fun n => n.isLiveMount = false) = node1 :: node2 :: more)
    (hgroups : ∀ n ∈ node1 :: node2 :: more,
      n.dataGuardType = "DATA_GUARD_MEMBER" → (n.dataGuardGroup).isSome) :
    ((node1 :: node2 :: more).filter (nodeHostMatch host) = [] →
      get_oracle_db_id all dgs dbName (some host) =
        .pyCrash (.unboundLocalError "hosts") true) ∧
    (∀ ms m, (node1 :: node2 :: more).filter (nodeHostMatch host) = ms ++ [m] →
      specAssignedId m ≠ "" →
      get_oracle_db_id all dgs dbName (some host) =
        .ok ⟨specAssignedId m, m.cluster.id, m.cluster.name, m.cluster.timezone,
          ((node1 :: node2 :: more).filter (nodeHostMatch host)).any
            (fun n => n.dataGuardType = "DATA_GUARD_MEMBER")⟩) := by
  have hres : get_oracle_db_id all dgs dbName (some host) =
      multiMatchHost host (node1 :: node2 :: more) := by
    simp only [get_oracle_db_id, hfilter]
  rw [hres]
  unfold multiMatchHost
  rw [multiHostFoldM host (node1 :: node2 :: more) hgroups none]
  constructor
  · intro hnil
    rw [(scanResult_spec host (node1 :: node2 :: more) none).1 hnil]
  · intro ms m hms hne
    rw [(scanResult_spec host (node1 :: node2 :: more) none).2 ms m hms]
    simp only [stateDg, Bool.false_or]
    simp [hne]

/-- Data Guard member candidate used with c1NodeA in the C1 amended witness:
its path also contains the host substring and it is the last match. -/
def c1wNodeB : OracleDbNode :=
  { name := "ORCL", id := "idB",
    cluster := ⟨"cluster-b", "c2", "UTC"⟩,
    dataGuardType := "DATA_GUARD_MEMBER",
    dataGuardGroup := some ⟨"DATA_GUARD_GROUP", "SECONDARY", "ORCLDR", "dg-7"⟩,
    dbRole := "SECONDARY", dbUniqueName := "ORCLDR",
    isLiveMount := false, isRelic := false,
    physicalPath := [⟨"f2", "host1.standby.example.com", "OracleHost"⟩] }

/-- Witness for the amended C1: both candidates match the host substring and
the last one, a Data Guard member, wins with its group id and the dataguard
flag set. -/
theorem c1_amended_witness :
    get_oracle_db_id [c1NodeA, c1wNodeB] [] "ORCL" (some "host1") =
      .ok ⟨"dg-7", "c2", "cluster-b", "UTC", true⟩ :=
  (c1_amended_last_match_wins [c1NodeA, c1wNodeB] [] "ORCL" "host1"
      c1NodeA c1wNodeB [] rfl (by decide)).2 [c1NodeA] c1wNodeB
    (by decide) (by decide)

end RscOracle
